import Mathlib

/-!
Verification development for the CHANC-AI vessel-report orchestrator
(`src/app.py`).  The core pipeline (`obtener_datos_myshiptracking`,
`obtener_clima`, `obtener_datos_gfw`, `analizar_con_ia`,
`accion_principal`) is shallowly embedded below.  Network interactions
are modelled by passing each adapter the provider's response (transport
error, HTTP status, parsed JSON body) as an explicit input; provider
JSON payloads are modelled as records whose fields are `Option`-valued
(`none` conflates an absent key and a JSON `null`, both of which
`dict.get` turns into `None`).  Python exceptions that the source does
not catch are made explicit through `Except PyExn` / a dedicated
constructor, so that "the call raises" is an observable outcome of the
embedding.
-/

namespace ChancAI

/-- A Python exception escaping a function of the core. -/
inductive PyExn
  | keyError (key : String)
  | attributeError
  | indexError
  | valueError
deriving DecidableEq

instance [DecidableEq ε] [DecidableEq α] : DecidableEq (Except ε α) := fun x y =>
  match x, y with
  | .ok a, .ok b =>
    if h : a = b then .isTrue (by rw [h]) else .isFalse (by simp [h])
  | .error a, .error b =>
    if h : a = b then .isTrue (by rw [h]) else .isFalse (by simp [h])
  | .ok _, .error _ => .isFalse (by simp)
  | .error _, .ok _ => .isFalse (by simp)

/-- Python `pat in hay` substring test on strings, via char lists. -/
def containsSub (pat : List Char) : List Char → Bool
  | [] => pat.isEmpty
  | c :: cs => pat.isPrefixOf (c :: cs) || containsSub pat cs

/-- Python `pat in hay` for strings. -/
def pyIn (pat hay : String) : Bool := containsSub pat.data hay.data

/-- Python truthiness of an optional string (`None` and `""` are falsy):
models `if not api_key`. -/
def pyTruthyStr (s : Option String) : Bool := !(s.getD "").isEmpty

/-- Python truthiness of an optional list (`None` and `[]` are falsy). -/
def pyTruthyList (l : Option (List α)) : Bool :=
  match l with
  | none => false
  | some xs => !xs.isEmpty

/-- Python `s or fallback` for strings (empty string is falsy). -/
def pyOr (s fallback : String) : String := if s.isEmpty then fallback else s

/-- Fuel-driven core of Python `str.replace` (left-to-right,
non-overlapping); the fuel is the length of the subject, which bounds
the number of steps.  Only used with non-empty patterns. -/
def pyReplaceAux (pat rep : List Char) : Nat → List Char → List Char
  | 0, l => l
  | _ + 1, [] => []
  | fuel + 1, c :: cs =>
    if !pat.isEmpty && pat.isPrefixOf (c :: cs) then
      rep ++ pyReplaceAux pat rep fuel (cs.drop (pat.length - 1))
    else
      c :: pyReplaceAux pat rep fuel cs

/-- Python `s.replace(pat, rep)` for the non-empty patterns the source
uses (`"Z"`, `"_"`). -/
def pyReplace (s pat rep : String) : String :=
  ⟨pyReplaceAux pat.data rep.data s.data.length s.data⟩

/-- Character-level worker for Python `str.title()`: an alphabetic
character is uppercased when the previous character was not alphabetic,
lowercased otherwise. -/
def pyTitleAux : List Char → Bool → List Char
  | [], _ => []
  | c :: cs, prevAlpha =>
    if c.isAlpha then
      (if prevAlpha then c.toLower else c.toUpper) :: pyTitleAux cs true
    else
      c :: pyTitleAux cs false

/-- Python `s.title()` (ASCII-alphabetic word boundaries, which covers
the event-type strings the source formats). -/
def pyTitle (s : String) : String := ⟨pyTitleAux s.data false⟩

/-! ### Position adapter (`obtener_datos_myshiptracking`) -/

/-- The `data` object of a MyShipTracking success payload.  Numeric
provider fields are carried as `Option Rat`. -/
structure MstData where
  vessel_name : Option String := none
  lat : Option Rat := none
  lng : Option Rat := none
  speed : Option Rat := none
  course : Option Rat := none
  destination : Option String := none
  eta : Option String := none
  received : Option String := none
deriving DecidableEq

/-- A parsed MyShipTracking JSON response body. -/
structure MstBody where
  status : Option String := none
  code : Option String := none
  message : Option String := none
  data : Option MstData := none
deriving DecidableEq

/-- Outcome of the HTTP exchange with MyShipTracking: a
`requests.RequestException` (DNS, timeout, reset, malformed JSON), or a
response with its status code and parsed body. -/
inductive MstNet
  | neterr
  | resp (status : Nat) (body : MstBody)
deriving DecidableEq

/-- The success dictionary built by `obtener_datos_myshiptracking`. -/
structure DatosPosicion where
  nombre_barco : Option String
  latitud : Option Rat
  longitud : Option Rat
  velocidad_nudos : Option Rat
  rumbo : Option Rat
  destino : Option String
  eta : Option String
  ultimo_reporte : Option String
deriving DecidableEq

/-- Result of `obtener_datos_myshiptracking`: either an `{"error": msg}`
dictionary or the mapped position dictionary. -/
inductive MstResult
  | error (msg : String)
  | datos (d : DatosPosicion)
deriving DecidableEq

/-- `obtener_datos_myshiptracking(api_key, imo)` of `src/app.py`
(lines 61-83), with the network outcome as an explicit input.
`response.raise_for_status()` raises `HTTPError` (a
`RequestException`) exactly when the status code is `>= 400`, and the
single `except requests.exceptions.RequestException` turns every such
failure into the connectivity error message. -/
def obtener_datos_myshiptracking (api_key : Option String) (imo : String)
    (net : MstNet) : MstResult :=
  if !pyTruthyStr api_key then
    .error "API Key de MyShipTracking no configurada."
  else
    match net with
    | .neterr => .error "No se pudo conectar con la API de MyShipTracking."
    | .resp status body =>
      if 400 ≤ status then
        .error "No se pudo conectar con la API de MyShipTracking."
      else if body.status = some "success" then
        let data := body.data.getD {}
        .datos
          { nombre_barco := data.vessel_name
            latitud := data.lat
            longitud := data.lng
            velocidad_nudos := data.speed
            rumbo := data.course
            destino := data.destination
            eta := data.eta
            ultimo_reporte := data.received }
      else if pyIn "ERR_VESSEL_NOT_FOUND" (body.code.getD "") then
        .error ("No se encontró ningún barco con el número IMO: " ++ imo ++ ".")
      else
        .error (body.message.getD "Error desconocido de la API.")

/-! ### Weather adapter (`obtener_clima`) -/

/-- The `condition` object of a WeatherAPI current-conditions payload. -/
structure WCondition where
  text : Option String := none
deriving DecidableEq

/-- The `current` object of a WeatherAPI payload.  `wind_kph` is carried
as its textual rendering (no claim depends on its numeric value). -/
structure WCurrent where
  condition : Option WCondition := none
  wind_kph : Option String := none
deriving DecidableEq

/-- A parsed WeatherAPI JSON response body. -/
structure WeatherBody where
  current : Option WCurrent := none
deriving DecidableEq

/-- Outcome of the HTTP exchange with WeatherAPI. -/
inductive WeatherNet
  | neterr
  | resp (status : Nat) (body : WeatherBody)
deriving DecidableEq

/-- The dictionary returned by `obtener_clima` on success. -/
structure Clima where
  condicion : String
  viento_kph : String
deriving DecidableEq

/-- `obtener_clima(api_key, query_location)` of `src/app.py`
(lines 169-174).  Transport errors, non-2xx statuses
(`raise_for_status`) and JSON-decode failures are all
`RequestException`s, caught and collapsed to `None`; but a well-formed
JSON body missing `current` / `condition` / `text` / `wind_kph` makes
the uncaught subscript `data['current']['condition']['text']` raise
`KeyError`, which escapes the function. -/
def obtener_clima (api_key : Option String) (query_location : String)
    (net : WeatherNet) : Except PyExn (Option Clima) :=
  match net with
  | .neterr => .ok none
  | .resp status body =>
    if 400 ≤ status then .ok none
    else
      match body.current with
      | none => .error (.keyError "current")
      | some cur =>
        match cur.condition with
        | none => .error (.keyError "condition")
        | some cond =>
          match cond.text with
          | none => .error (.keyError "text")
          | some t =>
            match cur.wind_kph with
            | none => .error (.keyError "wind_kph")
            | some w => .ok (some { condicion := t, viento_kph := w })

/-! ### Activity adapter (`obtener_datos_gfw`) -/

/-- A `geartype` element of a GFW registry record. -/
structure Gear where
  name : Option String := none
deriving DecidableEq

/-- A GFW `registryInfo` element. -/
structure RegistryInfo where
  shipname : Option String := none
  flag : Option String := none
  geartype : Option (List Gear) := none
  sourceCode : Option (List String) := none
deriving DecidableEq

/-- A GFW `selfReportedInfo` element. -/
structure SelfReported where
  id : Option String := none
deriving DecidableEq

/-- One entry of a GFW vessel-search response. -/
structure GfwEntry where
  selfReportedInfo : Option (List SelfReported) := none
  registryInfo : Option (List RegistryInfo) := none
deriving DecidableEq

/-- A parsed GFW vessel-search response body. -/
structure GfwSearchBody where
  entries : Option (List GfwEntry) := none
deriving DecidableEq

/-- Outcome of the GFW vessel-search HTTP exchange. -/
inductive GfwSearchNet
  | neterr
  | resp (status : Nat) (body : GfwSearchBody)
deriving DecidableEq

/-- One entry of a GFW events response. -/
structure GfwEvent where
  type : Option String := none
  start : Option String := none
deriving DecidableEq

/-- A parsed GFW events response body. -/
structure GfwEventsBody where
  entries : Option (List GfwEvent) := none
deriving DecidableEq

/-- Outcome of one GFW events HTTP exchange (one per event category).
The events calls do not use `raise_for_status`, so a non-2xx response
is delivered as `resp` with its status code; only a raised
`RequestException` is `neterr`. -/
inductive EventNet
  | neterr
  | resp (status : Nat) (body : GfwEventsBody)
deriving DecidableEq

/-- The summary dictionary built by `obtener_datos_gfw` on success. -/
structure GfwSummary where
  nombre_registrado : String
  bandera : String
  tipo_de_equipo : String
  fuentes_de_registro : String
  eventos_recientes : List String
deriving DecidableEq

/-- Result of `obtener_datos_gfw`: an `{"error": msg}` dictionary, an
`{"info": msg}` dictionary, the summary dictionary, or an uncaught
Python exception escaping the function. -/
inductive GfwResult
  | error (msg : String)
  | info (msg : String)
  | summary (s : GfwSummary)
  | exn (e : PyExn)
deriving DecidableEq

/-- The events an event-category response contributes to `all_events`:
entries are appended only when the status code is exactly 200 and the
body's `entries` list is truthy (present and non-empty)
(`src/app.py` lines 136-140). -/
def contributed (net : EventNet) : List GfwEvent :=
  match net with
  | .neterr => []
  | .resp status body =>
    if status == 200 && pyTruthyList body.entries then body.entries.getD []
    else []

/-- The event-gathering loop over the two categories (fishing first,
then port visits, the insertion order of `datasets_to_query`).  A
`RequestException` from either `requests.get` propagates to the outer
handler, which returns the GFW connectivity error; the port request is
not issued when the fishing request raised. -/
def eventPhase : EventNet → EventNet → Except String (List GfwEvent)
  | .neterr, _ => .error "No se pudo conectar con la API de Global Fishing Watch."
  | .resp _ _, .neterr => .error "No se pudo conectar con la API de Global Fishing Watch."
  | fNet@(.resp _ _), pNet@(.resp _ _) => .ok (contributed fNet ++ contributed pNet)

/-- Sort key used by
`all_events.sort(key=lambda x: x.get('start', ''), reverse=True)`, as a
character list: `List Char` carries the lexicographic code-point order,
which is exactly how Python compares the key strings. -/
def eventKey (e : GfwEvent) : List Char := (e.start.getD "").data

/-- The relation `all_events.sort(..., reverse=True)` sorts by:
`a` may precede `b` when `a`'s key is `≥` `b`'s. -/
def eventGe (a b : GfwEvent) : Prop := eventKey b ≤ eventKey a

instance : DecidableRel eventGe := fun a b =>
  inferInstanceAs (Decidable (eventKey b ≤ eventKey a))

instance : IsTotal GfwEvent eventGe :=
  ⟨fun a b => (le_total (eventKey a) (eventKey b)).symm⟩

instance : IsTrans GfwEvent eventGe :=
  ⟨fun _ _ _ hab hbc => le_trans hbc hab⟩

/-- Python's stable descending sort by start key.  CPython's
`list.sort(key=..., reverse=True)` is the stable sort by the total
preorder `eventGe` (equal keys keep their original relative order, the
reversal not affecting ties); `List.insertionSort` is that same stable
sort, so the two agree on every input. -/
def sortEventsDesc (l : List GfwEvent) : List GfwEvent :=
  l.insertionSort eventGe

/-- The merged, truncated event list: sort all gathered events
descending by start key, then take the first 5 (`all_events[:5]`). -/
def mergedEvents (all_events : List GfwEvent) : List GfwEvent :=
  (sortEventsDesc all_events).take 5

/-- Models `datetime.fromisoformat(s.replace("Z", "+00:00")).strftime('%Y-%m-%d')`:
succeeds on strings that lead with a digit-shaped `YYYY-MM-DD` date,
returning that date; raises `ValueError` otherwise. -/
def pyIsoDate (s0 : String) : Except PyExn String :=
  match (pyReplace s0 "Z" "+00:00").data with
  | y1 :: y2 :: y3 :: y4 :: h1 :: m1 :: m2 :: h2 :: d1 :: d2 :: _ =>
    if y1.isDigit && y2.isDigit && y3.isDigit && y4.isDigit && h1 == '-' &&
       m1.isDigit && m2.isDigit && h2 == '-' && d1.isDigit && d2.isDigit then
      .ok ⟨[y1, y2, y3, y4, h1, m1, m2, h2, d1, d2]⟩
    else .error .valueError
  | _ => .error .valueError

/-- One iteration of the formatting loop (`src/app.py` lines 145-148).
`event.get("type", "desconocido")` is replaced/titled; then
`event.get("start").replace("Z", "+00:00")` raises `AttributeError`
when the event has no `start` key (`None.replace`). -/
def formatEvent (e : GfwEvent) : Except PyExn String :=
  let event_type := pyTitle (pyReplace (e.type.getD "desconocido") "_" " ")
  match e.start with
  | none => .error .attributeError
  | some s =>
    match pyIsoDate s with
    | .error exc => .error exc
    | .ok event_start =>
      .ok ("- Evento de \x27" ++ event_type ++ "\x27 iniciado el " ++ event_start)

/-- The formatting loop over the merged events, stopping at the first
raised exception. -/
def formatEvents : List GfwEvent → Except PyExn (List String)
  | [] => .ok []
  | e :: es =>
    match formatEvent e with
    | .error exc => .error exc
    | .ok line =>
      match formatEvents es with
      | .error exc => .error exc
      | .ok rest => .ok (line :: rest)

/-- The fixed line substituted when no events remain after the merge. -/
def noEventsLine : String :=
  "No se han registrado eventos notables en los últimos 90 días."

/-- The `gfw_summary` dictionary as first built from the registry
record (`src/app.py` lines 114-119), before `eventos_recientes` is
attached. -/
def baseSummary (registry_info : RegistryInfo) : GfwSummary :=
  { nombre_registrado := registry_info.shipname.getD "No disponible"
    bandera := registry_info.flag.getD "No disponible"
    tipo_de_equipo :=
      pyOr (String.intercalate ", "
        ((registry_info.geartype.getD []).map (fun g => g.name.getD "")))
        "No especificado"
    fuentes_de_registro :=
      pyOr (String.intercalate ", " (registry_info.sourceCode.getD []))
        "No disponible"
    eventos_recientes := [] }

/-- The part of `obtener_datos_gfw` after the identity phase
(`src/app.py` lines 114-152): build the registry summary, gather and
merge the two event categories, format the retained events. -/
def gfwAfterIdentity (registry_info : RegistryInfo) (fNet pNet : EventNet) :
    GfwResult :=
  match eventPhase fNet pNet with
  | .error msg => .error msg
  | .ok all_events =>
    match formatEvents (mergedEvents all_events) with
    | .error exc => .exn exc
    | .ok event_summary =>
      .summary
        { baseSummary registry_info with
          eventos_recientes :=
            if event_summary.isEmpty then [noEventsLine] else event_summary }

/-- `obtener_datos_gfw(api_key, imo)` of `src/app.py` (lines 85-159),
with the three HTTP exchanges (vessel search, fishing events, port
events) as explicit inputs.  `raise_for_status` on the search response
turns a status `>= 400` into `HTTPError`, caught first and mapped to
the activity-unavailable message; any other `RequestException` maps to
the GFW connectivity message.  The vessel id extracted from
`selfReportedInfo[0]` only parameterizes the events request URLs, whose
responses are already inputs here. -/
def obtener_datos_gfw (api_key : Option String) (searchNet : GfwSearchNet)
    (fNet pNet : EventNet) : GfwResult :=
  if !pyTruthyStr api_key then
    .error "API Key de Global Fishing Watch no configurada."
  else
    match searchNet with
    | .neterr => .error "No se pudo conectar con la API de Global Fishing Watch."
    | .resp status body =>
      if 400 ≤ status then
        .error "No fue posible consultar las bases de datos de actividad marítima en este momento."
      else
        match body.entries with
        | none => .info "No se encontraron registros públicos para este buque."
        | some [] => .info "No se encontraron registros públicos para este buque."
        | some (entry :: _) =>
          match entry.selfReportedInfo with
          | none => .info "El buque existe en GFW pero no tiene información de AIS reportada."
          | some [] => .info "El buque existe en GFW pero no tiene información de AIS reportada."
          | some (_ :: _) =>
            let registry_info : RegistryInfo :=
              match entry.registryInfo with
              | some (r :: _) => r
              | _ => {}
            gfwAfterIdentity registry_info fNet pNet

/-! ### Report synthesizer (`analizar_con_ia`) -/

/-- Outcome of the chat-completion call: the generated content, or the
`str()` of any raised exception (the bare `except Exception` catches
them all). -/
inductive IaOutcome
  | ok (content : String)
  | exnStr (e : String)
deriving DecidableEq

/-- `analizar_con_ia(prompt, reporte)` of `src/app.py` (lines 162-167),
with the completion outcome as an explicit input.  On any exception the
function returns `f"Error al generar el análisis de la IA: {e}"`. -/
def analizar_con_ia (prompt reporte : String) (outcome : IaOutcome) : String :=
  match outcome with
  | .ok content => content
  | .exnStr e => "Error al generar el análisis de la IA: " ++ e

/-! ### Orchestrator (`accion_principal`) -/

/-- Rendering of an optional string inside a Python dict `str()`. -/
def reprOptStr : Option String → String
  | none => "None"
  | some s => "\x27" ++ s ++ "\x27"

/-- Rendering of an optional number inside a Python dict `str()` (the
exact numeral format is irrelevant to every claim; Python prints floats,
the model prints rationals). -/
def reprOptRat : Option Rat → String
  | none => "None"
  | some q => toString q

/-- `str()` of the position dictionary, as interpolated into the
composite brief. -/
def reprDatosPosicion (d : DatosPosicion) : String :=
  "\x7b\x27nombre_barco\x27: " ++ reprOptStr d.nombre_barco ++
  ", \x27latitud\x27: " ++ reprOptRat d.latitud ++
  ", \x27longitud\x27: " ++ reprOptRat d.longitud ++
  ", \x27velocidad_nudos\x27: " ++ reprOptRat d.velocidad_nudos ++
  ", \x27rumbo\x27: " ++ reprOptRat d.rumbo ++
  ", \x27destino\x27: " ++ reprOptStr d.destino ++
  ", \x27eta\x27: " ++ reprOptStr d.eta ++
  ", \x27ultimo_reporte\x27: " ++ reprOptStr d.ultimo_reporte ++ "\x7d"

/-- `str()` of a list of strings. -/
def reprStrList (l : List String) : String :=
  "[" ++ String.intercalate ", " (l.map (fun s => "\x27" ++ s ++ "\x27")) ++ "]"

/-- `str()` of the dictionary returned by `obtener_datos_gfw`, as
interpolated into the composite brief (never a raised exception there:
the orchestrator embedding propagates `exn` before building the brief). -/
def reprGfwResult : GfwResult → String
  | .error msg => "\x7b\x27error\x27: \x27" ++ msg ++ "\x27\x7d"
  | .info msg => "\x7b\x27info\x27: \x27" ++ msg ++ "\x27\x7d"
  | .summary s =>
    "\x7b\x27nombre_registrado\x27: \x27" ++ s.nombre_registrado ++
    "\x27, \x27bandera\x27: \x27" ++ s.bandera ++
    "\x27, \x27tipo_de_equipo\x27: \x27" ++ s.tipo_de_equipo ++
    "\x27, \x27fuentes_de_registro\x27: \x27" ++ s.fuentes_de_registro ++
    "\x27, \x27eventos_recientes\x27: " ++ reprStrList s.eventos_recientes ++ "\x7d"
  | .exn _ => ""

/-- The fixed system prompt built by `accion_principal`
(`src/app.py` lines 201-211), with the user display name interpolated. -/
def promptText (user_nombre : String) : String :=
  "Eres Chanc-ai, un analista experto en logística marítima. Tu tarea es redactar un informe ejecutivo personalizado para el usuario \x27" ++
  user_nombre ++
  "\x27. El informe debe ser fluido, integrado y en un tono narrativo. No enumeres los datos; en su lugar, úsalos para construir un análisis coherente.\n\n" ++
  "**Estructura del Informe:**\n" ++
  "1. **Saludo y Resumen:** Comienza el informe con un saludo personalizado (ej. \x27Hola, Mateo.\x27) y presenta el estado general del buque en una o dos frases.\n" ++
  "2. **Análisis de la Situación:** Desarrolla el párrafo principal que integra todos los datos disponibles (posición, clima, identidad, actividad).\n" ++
  "3. **Evaluación y Recomendaciones:** Concluye con tu evaluación profesional. Si falta información (como el ETA o datos de GFW), conviértelo en un punto de análisis de riesgo y basa tus recomendaciones en ello.\n\n" ++
  "**Instrucciones Especiales:**\n" ++
  "- **Manejo de Errores:** Si los datos de Global Fishing Watch no están disponibles, indícalo de forma sutil, como: \x27No fue posible verificar los registros públicos de actividad del buque en este momento\x27. No menciones APIs ni errores de conexión.\n" ++
  "- **Tono:** Profesional, directo y personalizado. Evita la redundancia."

/-- The composite brief (`reporte_completo`, `src/app.py` lines 194-198). -/
def reporteCompleto (d : DatosPosicion) (clima_actual : String)
    (datos_gfw : GfwResult) : String :=
  "**DATOS DE POSICIÓN (MyShipTracking):**\n" ++ reprDatosPosicion d ++
  "\n\n**CLIMA EN LA UBICACIÓN ACTUAL:**\n" ++ clima_actual ++
  "\n\n**DATOS DE IDENTIDAD Y ACTIVIDAD (Global Fishing Watch):**\n" ++
  reprGfwResult datos_gfw

/-- The final payload of `accion_principal`: the `reporte` text and the
`coordenadas` value (`None`, or the two-element list
`[latitud, longitud]`, whose members may themselves be `None`). -/
structure Payload where
  reporte : String
  coordenadas : Option (Option Rat × Option Rat)
deriving DecidableEq

/-- Observable outcome of one `accion_principal` run: the returned
payload (or the uncaught exception that escaped), plus which external
collaborators were actually invoked. -/
structure Trace where
  result : Except PyExn Payload
  calledClima : Bool
  calledGfw : Bool
  calledIa : Bool

/-- The environment of one request: the configured API keys and the
outcome of each potential provider exchange. -/
structure Env where
  mstKey : Option String
  weatherKey : Option String
  gfwKey : Option String
  mstNet : MstNet
  weatherNet : WeatherNet
  gfwSearchNet : GfwSearchNet
  gfwFishingNet : EventNet
  gfwPortNet : EventNet
  iaOutcome : IaOutcome

/-- The weather step of `accion_principal` (`src/app.py` lines 184-190):
`coordenadas` is set and `obtener_clima` is called when `latitud` is not
`None` (`longitud` is not checked); yields the `clima_actual` text, the
`coordenadas` value, and whether the weather adapter was invoked.  An
exception escaping `obtener_clima` propagates. -/
def climaStep (env : Env) (d : DatosPosicion) :
    Except PyExn (String × Option (Option Rat × Option Rat) × Bool) :=
  if d.latitud.isSome then
    let coordenadas := some (d.latitud, d.longitud)
    let query := reprOptRat d.latitud ++ "," ++ reprOptRat d.longitud
    match obtener_clima env.weatherKey query env.weatherNet with
    | .error exc => .error exc
    | .ok (some clima_data) =>
      .ok ("Condición: " ++ clima_data.condicion ++ ", Viento: " ++
            clima_data.viento_kph ++ " kph.", coordenadas, true)
    | .ok none => .ok ("No disponible", coordenadas, true)
  else
    .ok ("No disponible", none, false)

/-- `accion_principal(imo_barco, user_nombre)` of `src/app.py`
(lines 176-213).  A position failure short-circuits before any other
adapter is invoked; otherwise weather is fetched when `latitud` is
present, GFW is always consulted, and the synthesizer produces the
report.  Uncaught exceptions from `obtener_clima` or
`obtener_datos_gfw` escape the function (`result = .error`). -/
def accion_principal (imo_barco user_nombre : String) (env : Env) : Trace :=
  let datos_posicion := obtener_datos_myshiptracking env.mstKey imo_barco env.mstNet
  match datos_posicion with
  | .error msg =>
    { result := .ok { reporte := msg, coordenadas := none }
      calledClima := false, calledGfw := false, calledIa := false }
  | .datos d =>
    match climaStep env d with
    | .error exc =>
      { result := .error exc
        calledClima := true, calledGfw := false, calledIa := false }
    | .ok (clima_actual, coordenadas, wasCalled) =>
      let datos_gfw :=
        obtener_datos_gfw env.gfwKey env.gfwSearchNet env.gfwFishingNet env.gfwPortNet
      match datos_gfw with
      | .exn exc =>
        { result := .error exc
          calledClima := wasCalled, calledGfw := true, calledIa := false }
      | _ =>
        let reporte_completo := reporteCompleto d clima_actual datos_gfw
        let prompt := promptText user_nombre
        { result := .ok
            { reporte := analizar_con_ia prompt reporte_completo env.iaOutcome
              coordenadas := coordenadas }
          calledClima := wasCalled, calledGfw := true, calledIa := true }

/-! ### Shared lemmas -/

/-- A category response with a status other than 200 contributes no
events. -/
theorem contributed_eq_nil_of_ne_200 (s : Nat) (b : GfwEventsBody)
    (hs : s ≠ 200) : contributed (.resp s b) = [] := by
  simp [contributed, hs]

/-- A 200 response with no `entries` key contributes no events. -/
theorem contributed_200_none : contributed (.resp 200 { entries := none }) = [] := by
  simp [contributed, pyTruthyList]

/-- Once the identity phase found an entry with a truthy
`selfReportedInfo`, the adapter is `gfwAfterIdentity` applied to the
extracted (or defaulted) registry record. -/
theorem obtener_datos_gfw_identity (api_key : Option String) (st : Nat)
    (body : GfwSearchBody) (entry : GfwEntry) (rest : List GfwEntry)
    (si : SelfReported) (sis : List SelfReported) (fNet pNet : EventNet)
    (hkey : pyTruthyStr api_key = true) (hst : st < 400)
    (hentries : body.entries = some (entry :: rest))
    (hsri : entry.selfReportedInfo = some (si :: sis)) :
    obtener_datos_gfw api_key (.resp st body) fNet pNet =
      gfwAfterIdentity
        (match entry.registryInfo with
         | some (r :: _) => r
         | _ => {})
        fNet pNet := by
  simp only [obtener_datos_gfw, hkey, Bool.not_true, Bool.false_eq_true, if_false,
    hentries, hsri]
  rw [if_neg (by omega)]

/-- `pyIsoDate` either succeeds or raises `ValueError`. -/
theorem pyIsoDate_ok_or_valueError (s : String) :
    (∃ d, pyIsoDate s = .ok d) ∨ pyIsoDate s = .error .valueError := by
  unfold pyIsoDate
  generalize (pyReplace s "Z" "+00:00").data = cs
  rcases cs with _ | ⟨a1, _ | ⟨a2, _ | ⟨a3, _ | ⟨a4, _ | ⟨a5, _ | ⟨a6, _ | ⟨a7, _ |
    ⟨a8, _ | ⟨a9, _ | ⟨a10, tl⟩⟩⟩⟩⟩⟩⟩⟩⟩⟩
  case cons.cons.cons.cons.cons.cons.cons.cons.cons.cons =>
    dsimp only
    split_ifs with hc
    · exact .inl ⟨_, rfl⟩
    · exact .inr rfl
  all_goals exact .inr rfl

/-- Formatting one event never raises `IndexError`. -/
theorem formatEvent_no_indexError (e : GfwEvent) :
    formatEvent e ≠ .error .indexError := by
  unfold formatEvent
  match e.start with
  | none => simp
  | some s =>
    rcases pyIsoDate_ok_or_valueError s with ⟨d, hd⟩ | hd <;> simp [hd]

/-- The formatting loop never raises `IndexError`. -/
theorem formatEvents_no_indexError (l : List GfwEvent) :
    formatEvents l ≠ .error .indexError := by
  induction l with
  | nil => simp [formatEvents]
  | cons e es ih =>
    unfold formatEvents
    cases he : formatEvent e with
    | error exc =>
      have hne := formatEvent_no_indexError e
      rw [he] at hne
      simpa using hne
    | ok line =>
      cases hes : formatEvents es with
      | error exc =>
        rw [hes] at ih
        simpa using ih
      | ok rest => simp

/-- Whenever the weather step returns normally, the coordinates it
yields are the pair `[latitud, longitud]` exactly when `latitud` is
non-null, and `none` otherwise. -/
theorem climaStep_coordenadas (env : Env) (d : DatosPosicion)
    (r : String × Option (Option Rat × Option Rat) × Bool)
    (h : climaStep env d = .ok r) :
    r.2.1 = if d.latitud.isSome then some (d.latitud, d.longitud) else none := by
  unfold climaStep at h
  by_cases hl : d.latitud.isSome
  · simp only [hl, if_true] at h ⊢
    rcases hw : obtener_clima env.weatherKey
        (reprOptRat d.latitud ++ "," ++ reprOptRat d.longitud) env.weatherNet with exc | oc
    · rw [hw] at h
      simp at h
    · rw [hw] at h
      rcases oc with _ | c
      · simp only [] at h
        cases h
        rfl
      · simp only [] at h
        cases h
        rfl
  · simp only [hl, if_false] at h ⊢
    cases h
    rfl

/-! ### Claim C1 -/

/-- Claim C1: for every vessel identifier, if the position adapter
returns a failure, `accion_principal` returns that failure's message as
the narrative with null coordinates, invoking neither the weather nor
the activity adapter (nor the synthesizer); in particular, for a 2xx
provider response whose `code` contains `ERR_VESSEL_NOT_FOUND` and IMO
`"9999999999"`, the narrative is exactly
`"No se encontró ningún barco con el número IMO: 9999999999."`. -/
theorem position_failure_short_circuits (imo user : String) (env : Env) :
    (∀ msg, obtener_datos_myshiptracking env.mstKey imo env.mstNet = .error msg →
      accion_principal imo user env =
        { result := .ok { reporte := msg, coordenadas := none }
          calledClima := false, calledGfw := false, calledIa := false }) ∧
    (∀ st body, env.mstNet = .resp st body → st < 400 →
      pyTruthyStr env.mstKey = true →
      body.status ≠ some "success" →
      pyIn "ERR_VESSEL_NOT_FOUND" (body.code.getD "") = true →
      accion_principal "9999999999" user env =
        { result := .ok
            { reporte := "No se encontró ningún barco con el número IMO: 9999999999."
              coordenadas := none }
          calledClima := false, calledGfw := false, calledIa := false }) := by
  have short : ∀ imo2 msg,
      obtener_datos_myshiptracking env.mstKey imo2 env.mstNet = .error msg →
      accion_principal imo2 user env =
        { result := .ok { reporte := msg, coordenadas := none }
          calledClima := false, calledGfw := false, calledIa := false } := by
    intro imo2 msg h
    simp only [accion_principal, h]
  refine ⟨fun msg h => short imo msg h, ?_⟩
  intro st body hnet hst hkey hstatus hcode
  refine short "9999999999" _ ?_
  rw [hnet]
  unfold obtener_datos_myshiptracking
  rw [hkey]
  simp only [Bool.not_true, Bool.false_eq_true, if_false]
  rw [if_neg (by omega), if_neg hstatus, if_pos hcode]
  rfl

/-- Witness for C1 at a concrete environment. -/
def envVesselNotFound : Env :=
  { mstKey := some "k", weatherKey := some "w", gfwKey := some "g"
    mstNet := .resp 200
      { status := some "error", code := some "ERR_VESSEL_NOT_FOUND"
        message := none, data := none }
    weatherNet := .neterr, gfwSearchNet := .neterr
    gfwFishingNet := .neterr, gfwPortNet := .neterr
    iaOutcome := .ok "texto" }

/-- C1 applied at `envVesselNotFound`. -/
theorem position_failure_short_circuits_witness :
    accion_principal "9999999999" "Ana" envVesselNotFound =
      { result := .ok
          { reporte := "No se encontró ningún barco con el número IMO: 9999999999."
            coordenadas := none }
        calledClima := false, calledGfw := false, calledIa := false } :=
  (position_failure_short_circuits "9999999999" "Ana" envVesselNotFound).2 200
    { status := some "error", code := some "ERR_VESSEL_NOT_FOUND"
      message := none, data := none }
    rfl (by decide) (by decide) (by decide) (by decide)

/-! ### Claim C2 -/

/-- Environment for the C2 counterexample: the position succeeds with a
latitude but no longitude. -/
def envLatSinLng : Env :=
  { mstKey := some "k", weatherKey := some "w", gfwKey := some "g"
    mstNet := .resp 200
      { status := some "success", code := none, message := none
        data := some { lat := some 1 } }
    weatherNet := .neterr, gfwSearchNet := .neterr
    gfwFishingNet := .neterr, gfwPortNet := .neterr
    iaOutcome := .ok "texto" }

/-- Claim C2 is false as stated: `accion_principal` attaches a non-null
`coordenadas` as soon as `latitud` is non-null, even when `longitud` is
null — the payload then carries `[latitud, None]`, so coordinates are
not attached only when both were resolved. -/
theorem coordinates_attached_without_longitude :
    ¬ (∀ p : Payload,
        (accion_principal "123" "Ana" envLatSinLng).result = .ok p →
        p.coordenadas.isSome = true →
        ∃ la lo : Rat, p.coordenadas = some (some la, some lo)) := by
  intro hclaim
  obtain ⟨la, lo, hpair⟩ :=
    hclaim { reporte := "texto", coordenadas := some (some 1, none) } rfl rfl
  simp at hpair

/-- Claim C2 (amended): for every position success, the final payload's
`coordenadas` is non-null exactly when `latitud` is non-null (`longitud`
is not checked), and it then equals the pair `[latitud, longitud]` of
the position result — in particular it equals `[latitud, longitud]`
with both members non-null whenever both were resolved. -/
theorem coordinates_follow_latitude_gate (imo user : String) (env : Env)
    (d : DatosPosicion) (p : Payload)
    (hpos : obtener_datos_myshiptracking env.mstKey imo env.mstNet = .datos d)
    (hres : (accion_principal imo user env).result = .ok p) :
    p.coordenadas = if d.latitud.isSome then some (d.latitud, d.longitud) else none := by
  simp only [accion_principal, hpos] at hres
  rcases hcs : climaStep env d with exc | r
  · rw [hcs] at hres
    simp at hres
  · rw [hcs] at hres
    obtain ⟨clima_actual, coordenadas, wasCalled⟩ := r
    have hco := climaStep_coordenadas env d _ hcs
    rcases hg : obtener_datos_gfw env.gfwKey env.gfwSearchNet env.gfwFishingNet
        env.gfwPortNet with msg | msg | s | exc <;>
      rw [hg] at hres <;>
      simp only [] at hres
    · cases hres; exact hco
    · cases hres; exact hco
    · cases hres; exact hco
    · simp at hres

/-- Environment for the C2 amended witness: both coordinates resolved. -/
def envAmbasCoordenadas : Env :=
  { mstKey := some "k", weatherKey := some "w", gfwKey := some "g"
    mstNet := .resp 200
      { status := some "success", code := none, message := none
        data := some { lat := some 1, lng := some 2 } }
    weatherNet := .neterr, gfwSearchNet := .neterr
    gfwFishingNet := .neterr, gfwPortNet := .neterr
    iaOutcome := .ok "texto" }

/-! ### Claim C3 -/

/-- Claim C3: for every pair of event-category lists (event start
timestamps arbitrary or missing), the merged event list the adapter
formats is the concatenation of both categories sorted in
non-increasing key order (missing starts keying as the empty string,
the lowest value), truncated to at most 5 entries: it is pairwise
non-increasing, has length at most 5, and equals the 5-truncation of a
sorted permutation of the concatenation. -/
theorem merged_events_sorted_truncated (fishing port : List GfwEvent) :
    List.Pairwise eventGe (mergedEvents (fishing ++ port)) ∧
    (mergedEvents (fishing ++ port)).length ≤ 5 ∧
    ∃ l : List GfwEvent, List.Perm (fishing ++ port) l ∧ List.Pairwise eventGe l ∧
      mergedEvents (fishing ++ port) = l.take 5 := by
  have hsorted : List.Pairwise eventGe (sortEventsDesc (fishing ++ port)) :=
    List.sorted_insertionSort eventGe (fishing ++ port)
  refine ⟨?_, ?_, sortEventsDesc (fishing ++ port), ?_, hsorted, rfl⟩
  · exact hsorted.sublist (List.take_sublist 5 _)
  · simp [mergedEvents]
  · exact (List.perm_insertionSort eventGe (fishing ++ port)).symm

/-! ### Claim C4 -/

/-- Environment for the C4 failing input: the position succeeds without
coordinates, the activity search succeeds, and the fishing-events
category returns a 200 payload containing one event with no `start`
key. -/
def envEventoSinStart : Env :=
  { mstKey := some "k", weatherKey := some "w", gfwKey := some "g"
    mstNet := .resp 200
      { status := some "success", code := none, message := none, data := some {} }
    weatherNet := .neterr
    gfwSearchNet := .resp 200
      { entries := some [{ selfReportedInfo := some [{ id := some "vid" }]
                           registryInfo := none }] }
    gfwFishingNet := .resp 200
      { entries := some [{ type := some "fishing", start := none }] }
    gfwPortNet := .resp 200 { entries := none }
    iaOutcome := .ok "texto" }

/-- Claim C4 is violated by the code: for the provider response shape of
`envEventoSinStart` — an event entry lacking a start timestamp — the
activity adapter does not return a tagged result but raises
`AttributeError` (`event.get("start").replace(...)` on `None`), and the
exception crosses the orchestrator boundary, escaping
`accion_principal`. -/
theorem adapter_exception_crosses_orchestrator :
    obtener_datos_gfw (some "g") envEventoSinStart.gfwSearchNet
      envEventoSinStart.gfwFishingNet envEventoSinStart.gfwPortNet =
      .exn .attributeError ∧
    (accion_principal "123" "Ana" envEventoSinStart).result = .error .attributeError :=
  ⟨by decide, rfl⟩

/-! ### Claim C5 -/

/-- Claim C5 is violated by the code: `obtener_clima` does return `null`
on a transport error and on a non-2xx status, but a 2xx response with a
malformed payload (here: JSON missing the `current` object) raises an
uncaught `KeyError` instead of returning `null`. -/
theorem weather_malformed_payload_raises :
    obtener_clima (some "k") "0,0" .neterr = .ok none ∧
    obtener_clima (some "k") "0,0"
      (.resp 500 { current := some { condition := some { text := some "Sunny" }
                                     wind_kph := some "10" } }) = .ok none ∧
    obtener_clima (some "k") "0,0" (.resp 200 { current := none }) =
      .error (.keyError "current") :=
  ⟨rfl, by decide, by decide⟩

/-- C2 (amended) applied at `envAmbasCoordenadas`. -/
theorem coordinates_follow_latitude_gate_witness :
    ({ reporte := "texto", coordenadas := some (some 1, some 2) } : Payload).coordenadas =
      if (some (1 : Rat)).isSome then some (some (1 : Rat), some (2 : Rat)) else none :=
  coordinates_follow_latitude_gate "123" "Ana" envAmbasCoordenadas
    { nombre_barco := none, latitud := some 1, longitud := some 2
      velocidad_nudos := none, rumbo := none, destino := none
      eta := none, ultimo_reporte := none }
    { reporte := "texto", coordenadas := some (some 1, some 2) }
    (by decide) rfl

/-! ### Claims C6 and C8: the event phase -/

/-- Claim C6: whenever the adapter reaches the event phase and both
event categories contribute zero entries, the returned summary's event
list is exactly the single fixed no-recent-activity line. -/
theorem no_events_yields_single_fixed_line (api_key : Option String) (st : Nat)
    (body : GfwSearchBody) (entry : GfwEntry) (rest : List GfwEntry)
    (si : SelfReported) (sis : List SelfReported)
    (s1 s2 : Nat) (b1 b2 : GfwEventsBody)
    (hkey : pyTruthyStr api_key = true) (hst : st < 400)
    (hentries : body.entries = some (entry :: rest))
    (hsri : entry.selfReportedInfo = some (si :: sis))
    (h1 : contributed (.resp s1 b1) = [])
    (h2 : contributed (.resp s2 b2) = []) :
    ∃ s : GfwSummary,
      obtener_datos_gfw api_key (.resp st body) (.resp s1 b1) (.resp s2 b2) =
        .summary s ∧
      s.eventos_recientes = [noEventsLine] := by
  rw [obtener_datos_gfw_identity api_key st body entry rest si sis _ _
    hkey hst hentries hsri]
  simp only [gfwAfterIdentity, eventPhase, h1, h2]
  exact ⟨_, rfl, rfl⟩

/-- Witness search body shared by the event-phase and registry claims:
one entry with a truthy `selfReportedInfo` and no `registryInfo`. -/
def searchBodySinRegistro : GfwSearchBody :=
  { entries := some [{ selfReportedInfo := some [{ id := some "vid" }]
                       registryInfo := none }] }

/-- C6 applied at a concrete environment: one category 200-with-empty
entries, the other a 404. -/
theorem no_events_yields_single_fixed_line_witness :
    ∃ s : GfwSummary,
      obtener_datos_gfw (some "g") (.resp 200 searchBodySinRegistro)
        (.resp 200 { entries := some [] }) (.resp 404 { entries := none }) =
        .summary s ∧
      s.eventos_recientes = [noEventsLine] :=
  no_events_yields_single_fixed_line (some "g") 200 searchBodySinRegistro
    { selfReportedInfo := some [{ id := some "vid" }], registryInfo := none } []
    { id := some "vid" } [] 200 404 { entries := some [] } { entries := none }
    (by decide) (by decide) rfl rfl (by decide) (by decide)

/-- Claim C8: once the adapter reaches the event phase, a non-200
response from either event category is silently skipped — the run
equals the run in which that category returned 200 with no entries —
and, when the other category answers 200 and its entries format
without an exception, the overall outcome is a summary (not a failure)
carrying exactly the surviving category's merged, formatted events. -/
theorem non200_event_category_skipped (api_key : Option String) (st : Nat)
    (body : GfwSearchBody) (entry : GfwEntry) (rest : List GfwEntry)
    (si : SelfReported) (sis : List SelfReported)
    (hkey : pyTruthyStr api_key = true) (hst : st < 400)
    (hentries : body.entries = some (entry :: rest))
    (hsri : entry.selfReportedInfo = some (si :: sis)) :
    (∀ sf bf bp lines, sf ≠ 200 →
      formatEvents (mergedEvents (contributed (.resp 200 bp))) = .ok lines →
      obtener_datos_gfw api_key (.resp st body) (.resp sf bf) (.resp 200 bp) =
        obtener_datos_gfw api_key (.resp st body) (.resp 200 { entries := none })
          (.resp 200 bp) ∧
      ∃ s : GfwSummary,
        obtener_datos_gfw api_key (.resp st body) (.resp sf bf) (.resp 200 bp) =
          .summary s ∧
        s.eventos_recientes = (if lines.isEmpty then [noEventsLine] else lines)) ∧
    (∀ sp bf bp lines, sp ≠ 200 →
      formatEvents (mergedEvents (contributed (.resp 200 bf))) = .ok lines →
      obtener_datos_gfw api_key (.resp st body) (.resp 200 bf) (.resp sp bp) =
        obtener_datos_gfw api_key (.resp st body) (.resp 200 bf)
          (.resp 200 { entries := none }) ∧
      ∃ s : GfwSummary,
        obtener_datos_gfw api_key (.resp st body) (.resp 200 bf) (.resp sp bp) =
          .summary s ∧
        s.eventos_recientes = (if lines.isEmpty then [noEventsLine] else lines)) := by
  have hid : ∀ fNet pNet,
      obtener_datos_gfw api_key (.resp st body) fNet pNet =
        gfwAfterIdentity
          (match entry.registryInfo with
           | some (r :: _) => r
           | _ => {})
          fNet pNet :=
    fun fNet pNet =>
      obtener_datos_gfw_identity api_key st body entry rest si sis fNet pNet
        hkey hst hentries hsri
  constructor
  · intro sf bf bp lines hsf hfmt
    have hskip : contributed (.resp sf bf) = [] :=
      contributed_eq_nil_of_ne_200 sf bf hsf
    constructor
    · rw [hid, hid]
      simp only [gfwAfterIdentity, eventPhase, hskip, contributed_200_none]
    · rw [hid]
      simp only [gfwAfterIdentity, eventPhase, hskip, List.nil_append, hfmt]
      exact ⟨_, rfl, rfl⟩
  · intro sp bf bp lines hsp hfmt
    have hskip : contributed (.resp sp bp) = [] :=
      contributed_eq_nil_of_ne_200 sp bp hsp
    constructor
    · rw [hid, hid]
      simp only [gfwAfterIdentity, eventPhase, hskip, contributed_200_none]
    · rw [hid]
      simp only [gfwAfterIdentity, eventPhase, hskip, List.append_nil, hfmt]
      exact ⟨_, rfl, rfl⟩

/-- Witness events body: one port-visit event with a well-formed start. -/
def eventsPortVisita : GfwEventsBody :=
  { entries := some [{ type := some "port_visit", start := some "2025-08-01T10:00:00Z" }] }

/-- C8 applied at a concrete environment: fishing events answer 500,
port visits answer 200 with one event. -/
theorem non200_event_category_skipped_witness :
    obtener_datos_gfw (some "g") (.resp 200 searchBodySinRegistro)
      (.resp 500 { entries := none }) (.resp 200 eventsPortVisita) =
      obtener_datos_gfw (some "g") (.resp 200 searchBodySinRegistro)
        (.resp 200 { entries := none }) (.resp 200 eventsPortVisita) ∧
    ∃ s : GfwSummary,
      obtener_datos_gfw (some "g") (.resp 200 searchBodySinRegistro)
        (.resp 500 { entries := none }) (.resp 200 eventsPortVisita) = .summary s ∧
      s.eventos_recientes =
        (if (["- Evento de \x27Port Visit\x27 iniciado el 2025-08-01"] : List String).isEmpty
         then [noEventsLine]
         else ["- Evento de \x27Port Visit\x27 iniciado el 2025-08-01"]) :=
  (non200_event_category_skipped (some "g") 200 searchBodySinRegistro
    { selfReportedInfo := some [{ id := some "vid" }], registryInfo := none } []
    { id := some "vid" } [] (by decide) (by decide) rfl rfl).1
    500 { entries := none } eventsPortVisita
    ["- Evento de \x27Port Visit\x27 iniciado el 2025-08-01"]
    (by decide) (by decide)

/-! ### Claims C9 and C10: the registry sub-record -/

/-- `gfwAfterIdentity` never raises an index/bounds error: its only
exceptions come from event formatting, which raises `AttributeError` or
`ValueError`. -/
theorem gfwAfterIdentity_no_indexError (reg : RegistryInfo) (fNet pNet : EventNet) :
    gfwAfterIdentity reg fNet pNet ≠ .exn .indexError := by
  unfold gfwAfterIdentity
  split
  · simp
  · rename_i all_events hep
    split
    · rename_i exc hf
      have hne := formatEvents_no_indexError (mergedEvents all_events)
      rw [hf] at hne
      intro hcon
      injection hcon with hexc
      exact hne (by rw [hexc])
    · simp

/-- Claim C9: when the matched entry's registry sub-record list is
absent or empty, the adapter substitutes the empty record and proceeds
— the run equals `gfwAfterIdentity` on the empty registry record, and
no index/bounds error is raised for any event-phase responses. -/
theorem registry_missing_defaults_empty (api_key : Option String) (st : Nat)
    (body : GfwSearchBody) (entry : GfwEntry) (rest : List GfwEntry)
    (si : SelfReported) (sis : List SelfReported) (fNet pNet : EventNet)
    (hkey : pyTruthyStr api_key = true) (hst : st < 400)
    (hentries : body.entries = some (entry :: rest))
    (hsri : entry.selfReportedInfo = some (si :: sis))
    (hreg : entry.registryInfo = none ∨ entry.registryInfo = some []) :
    obtener_datos_gfw api_key (.resp st body) fNet pNet =
      gfwAfterIdentity {} fNet pNet ∧
    obtener_datos_gfw api_key (.resp st body) fNet pNet ≠ .exn .indexError := by
  have hid :=
    obtener_datos_gfw_identity api_key st body entry rest si sis fNet pNet
      hkey hst hentries hsri
  have hreg' : (match entry.registryInfo with
      | some (r :: _) => r
      | _ => ({} : RegistryInfo)) = {} := by
    rcases hreg with h | h <;> rw [h]
  rw [hid, hreg']
  exact ⟨rfl, gfwAfterIdentity_no_indexError {} fNet pNet⟩

/-- C9 applied at a concrete environment with `registryInfo` absent. -/
theorem registry_missing_defaults_empty_witness :
    obtener_datos_gfw (some "g") (.resp 200 searchBodySinRegistro)
      (.resp 404 { entries := none }) (.resp 404 { entries := none }) =
      gfwAfterIdentity {} (.resp 404 { entries := none })
        (.resp 404 { entries := none }) ∧
    obtener_datos_gfw (some "g") (.resp 200 searchBodySinRegistro)
      (.resp 404 { entries := none }) (.resp 404 { entries := none }) ≠
      .exn .indexError :=
  registry_missing_defaults_empty (some "g") 200 searchBodySinRegistro
    { selfReportedInfo := some [{ id := some "vid" }], registryInfo := none } []
    { id := some "vid" } [] (.resp 404 { entries := none })
    (.resp 404 { entries := none })
    (by decide) (by decide) rfl rfl (.inl rfl)

/-- Claim C10: when the registry sub-record is absent or empty, every
summary the adapter returns carries the fixed placeholder strings for
the registry-derived fields, never null/absent values. -/
theorem registry_missing_placeholder_fields (api_key : Option String) (st : Nat)
    (body : GfwSearchBody) (entry : GfwEntry) (rest : List GfwEntry)
    (si : SelfReported) (sis : List SelfReported) (fNet pNet : EventNet)
    (s : GfwSummary)
    (hkey : pyTruthyStr api_key = true) (hst : st < 400)
    (hentries : body.entries = some (entry :: rest))
    (hsri : entry.selfReportedInfo = some (si :: sis))
    (hreg : entry.registryInfo = none ∨ entry.registryInfo = some [])
    (hsum : obtener_datos_gfw api_key (.resp st body) fNet pNet = .summary s) :
    s.nombre_registrado = "No disponible" ∧ s.bandera = "No disponible" ∧
    s.tipo_de_equipo = "No especificado" ∧ s.fuentes_de_registro = "No disponible" := by
  have hid :=
    obtener_datos_gfw_identity api_key st body entry rest si sis fNet pNet
      hkey hst hentries hsri
  have hreg' : (match entry.registryInfo with
      | some (r :: _) => r
      | _ => ({} : RegistryInfo)) = {} := by
    rcases hreg with h | h <;> rw [h]
  rw [hid, hreg'] at hsum
  unfold gfwAfterIdentity at hsum
  split at hsum
  · simp at hsum
  · split at hsum
    · simp at hsum
    · injection hsum with hs
      rw [← hs]
      exact ⟨rfl, rfl, rfl, rfl⟩

/-- The summary produced at the C10 witness environment. -/
def resumenSinRegistro : GfwSummary :=
  { nombre_registrado := "No disponible", bandera := "No disponible"
    tipo_de_equipo := "No especificado", fuentes_de_registro := "No disponible"
    eventos_recientes := [noEventsLine] }

/-- C10 applied at a concrete environment with `registryInfo` absent. -/
theorem registry_missing_placeholder_fields_witness :
    resumenSinRegistro.nombre_registrado = "No disponible" ∧
    resumenSinRegistro.bandera = "No disponible" ∧
    resumenSinRegistro.tipo_de_equipo = "No especificado" ∧
    resumenSinRegistro.fuentes_de_registro = "No disponible" :=
  registry_missing_placeholder_fields (some "g") 200 searchBodySinRegistro
    { selfReportedInfo := some [{ id := some "vid" }], registryInfo := none } []
    { id := some "vid" } [] (.resp 404 { entries := none })
    (.resp 404 { entries := none }) resumenSinRegistro
    (by decide) (by decide) rfl rfl (.inl rfl) (by decide)

/-! ### Claim C7 -/

/-- Claim C7 is false as stated: the generation-failure fallback string
does embed the raw exception payload — at this concrete input the
user-facing string contains the exception text verbatim, contradicting
that technical details are never included in a user-facing string. -/
theorem ia_fallback_contains_exception_payload :
    analizar_con_ia "p" "r"
      (.exnStr "Traceback (most recent call last): ConnectionError") =
      "Error al generar el análisis de la IA: Traceback (most recent call last): ConnectionError" ∧
    pyIn "Traceback (most recent call last): ConnectionError"
      (analizar_con_ia "p" "r"
        (.exnStr "Traceback (most recent call last): ConnectionError")) = true :=
  ⟨rfl, by decide⟩

/-- Claim C7 (amended): if the generation call fails, the returned
string is the consistent detectable literal prefix
`"Error al generar el análisis de la IA: "` followed by the exception's
own text — so the degraded mode is detectable, but the raw exception
payload is included in the user-facing string. -/
theorem ia_fallback_prefixed (prompt reporte e : String) :
    analizar_con_ia prompt reporte (.exnStr e) =
      "Error al generar el análisis de la IA: " ++ e ∧
    ∃ rest, analizar_con_ia prompt reporte (.exnStr e) =
      "Error al generar el análisis de la IA: " ++ rest :=
  ⟨rfl, e, rfl⟩
